import Mathlib

/-!
Shallow embedding of the credibility-aggregation and user-reputation core of
the Quiz-Generator backend (`backend/crud.py`, `backend/main.py`,
`backend/database.py`, `backend/schemas.py`).

The SQLAlchemy session is modelled as an explicit `DB` state record holding the
persisted rows; each CRUD function becomes a pure state-passing function.
Python floats are modelled by `ℚ`, Python ints by `Int` (counts produced by
`len`/`sum` of non-negative things by `Nat`), `datetime` values by a calendar
`day` index plus a time-of-day component (only `.date()` and day differences
are ever used by the code), and raised exceptions by `Except`.
-/

/-- Timestamp as used by the code: `.date()` is the `day` component, and
subtracting two dates yields the difference of the `day` components. -/
structure DateTime where
  day : Int
  seconds : Nat
  deriving Repr, DecidableEq

/-- Row of the `articles` table, restricted to the fields read or written by
the aggregation core (`update_article_credibility` and its callers). -/
structure Article where
  id : Int
  credibility_score : ℚ
  total_responses : Nat
  flagged_as_misinformation : Nat
  flagged_as_credible : Nat
  deriving Repr, DecidableEq

/-- Row of the `quizzes` table (fields used by the submission pipeline). -/
structure Quiz where
  id : Int
  article_id : Int
  deriving Repr, DecidableEq

/-- Row of the `questions` table (fields used when scoring a submission). -/
structure Question where
  id : Int
  quiz_id : Int
  correct_option : Int
  deriving Repr, DecidableEq

/-- Row of the `users` table, restricted to identity and the aggregate
statistics recomputed by `update_user_statistics`. -/
structure User where
  id : Int
  user_identifier : String
  is_anonymous : Bool
  total_quizzes_taken : Nat
  total_correct_answers : Nat
  total_answers : Nat
  accuracy_rate : ℚ
  articles_flagged : Nat
  credibility_rating_given : Nat
  last_active : DateTime
  deriving Repr, DecidableEq

/-- Row of the `user_responses` table. -/
structure UserResponse where
  id : Int
  user_id : Int
  article_id : Int
  quiz_id : Int
  total_questions : Nat
  correct_answers : Nat
  score_percentage : ℚ
  user_credibility_rating : Int
  user_flagged_as_misinformation : Bool
  user_confidence_level : Int
  user_comments : Option String
  time_taken_seconds : Option Int
  completed_at : DateTime
  deriving Repr, DecidableEq

/-- Row of the `user_answers` table. -/
structure UserAnswer where
  response_id : Int
  question_id : Int
  selected_option : Int
  is_correct : Bool
  time_taken_seconds : Option Int
  deriving Repr, DecidableEq

/-- Row of the `misinformation_flags` table (fields written by
`create_misinformation_flag`). -/
structure MisinformationFlag where
  id : Int
  article_id : Int
  user_id : Int
  flag_type : String
  severity : Int
  reasoning : String
  evidence_provided : Option String
  deriving Repr, DecidableEq

/-- Pydantic `AnswerSubmission` schema. -/
structure AnswerSubmission where
  question_id : Int
  selected_option : Int
  time_taken_seconds : Option Int
  deriving Repr, DecidableEq

/-- Pydantic `QuizSubmission` schema. -/
structure QuizSubmission where
  quiz_id : Int
  user_id : Int
  answers : List AnswerSubmission
  user_credibility_rating : Int
  user_flagged_as_misinformation : Bool
  user_confidence_level : Int
  user_comments : Option String
  total_time_seconds : Option Int
  deriving Repr, DecidableEq

/-- Pydantic `MisinformationFlagCreate` schema. -/
structure MisinformationFlagCreate where
  article_id : Int
  user_id : Int
  flag_type : String
  severity : Int
  reasoning : String
  evidence_provided : Option String
  deriving Repr, DecidableEq

/-- The database session state: the persisted rows of each table, plus the
autoincrement counters for the primary keys the pipeline allocates. -/
structure DB where
  articles : List Article
  quizzes : List Quiz
  questions : List Question
  users : List User
  responses : List UserResponse
  answers : List UserAnswer
  flags : List MisinformationFlag
  next_response_id : Int
  next_flag_id : Int
  deriving Repr, DecidableEq

/-- Embedding of `get_article_by_id` (`crud.py`): first row with matching id. -/
def get_article_by_id (db : DB) (article_id : Int) : Option Article :=
  db.articles.find? fun a => a.id = article_id

/-- Embedding of `get_quiz_by_id` (`crud.py`). -/
def get_quiz_by_id (db : DB) (quiz_id : Int) : Option Quiz :=
  db.quizzes.find? fun q => q.id = quiz_id

/-- Embedding of `get_user_by_id` (`crud.py`). -/
def get_user_by_id (db : DB) (user_id : Int) : Option User :=
  db.users.find? fun u => u.id = user_id

/-- All responses stored for a given article (the query at the start of
`update_article_credibility`). -/
def article_responses (db : DB) (article_id : Int) : List UserResponse :=
  db.responses.filter fun r => r.article_id = article_id

/-- All responses stored for a given user (the query at the start of
`update_user_statistics`). -/
def user_responses (db : DB) (user_id : Int) : List UserResponse :=
  db.responses.filter fun r => r.user_id = user_id

/-- Sum of the confidence weights accumulated by the loop in
`update_article_credibility` (`total_weight`). -/
def article_total_weight (responses : List UserResponse) : Int :=
  (responses.map fun r => r.user_confidence_level).sum

/-- Sum of `rating * weight` accumulated by the loop in
`update_article_credibility` (`weighted_sum`). -/
def article_weighted_sum (responses : List UserResponse) : Int :=
  (responses.map fun r => r.user_credibility_rating * r.user_confidence_level).sum

/-- New field values for an article, as computed inside the
`if responses:` branch of `update_article_credibility`. -/
def recompute_article_record (responses : List UserResponse) (a : Article) : Article :=
  { a with
    credibility_score :=
      if 0 < article_total_weight responses then
        (article_weighted_sum responses : ℚ) / (article_total_weight responses : ℚ) * 20
      else a.credibility_score
    total_responses := responses.length
    flagged_as_misinformation :=
      (responses.filter fun r => r.user_flagged_as_misinformation).length
    flagged_as_credible :=
      (responses.filter fun r => !r.user_flagged_as_misinformation).length }

/-- Embedding of `update_article_credibility` (`crud.py`): recompute the
article's derived fields from all responses for that article; when there are
no responses (or the article is missing) the state is unchanged. -/
def update_article_credibility (db : DB) (article_id : Int) : DB :=
  match get_article_by_id db article_id with
  | none => db
  | some _ =>
    if (article_responses db article_id).isEmpty then db
    else
      { db with
        articles := db.articles.map fun a =>
          if a.id = article_id then
            recompute_article_record (article_responses db article_id) a
          else a }

/-- The `total_correct` sum computed by `update_user_statistics`. -/
def user_total_correct (db : DB) (user_id : Int) : Nat :=
  ((user_responses db user_id).map fun r => r.correct_answers).sum

/-- The `total_answers` sum computed by `update_user_statistics`. -/
def user_total_answers (db : DB) (user_id : Int) : Nat :=
  ((user_responses db user_id).map fun r => r.total_questions).sum

/-- New field values for a user, as computed inside the `if responses:`
branch of `update_user_statistics`; `now` stands for `datetime.utcnow()`. -/
def recompute_user_record (db : DB) (user_id : Int) (now : DateTime) (u : User) : User :=
  { u with
    total_quizzes_taken := (user_responses db user_id).length
    total_correct_answers := user_total_correct db user_id
    total_answers := user_total_answers db user_id
    accuracy_rate :=
      if 0 < user_total_answers db user_id then
        (user_total_correct db user_id : ℚ) / (user_total_answers db user_id : ℚ) * 100
      else 0
    articles_flagged := (db.flags.filter fun f => f.user_id = user_id).length
    credibility_rating_given := (user_responses db user_id).length
    last_active := now }

/-- Embedding of `update_user_statistics` (`crud.py`): recompute the user's
aggregate statistics from all of the user's responses and flags; when the user
has no responses (or is missing) the state is unchanged. -/
def update_user_statistics (db : DB) (user_id : Int) (now : DateTime) : DB :=
  match get_user_by_id db user_id with
  | none => db
  | some _ =>
    if (user_responses db user_id).isEmpty then db
    else
      { db with
        users := db.users.map fun u =>
          if u.id = user_id then recompute_user_record db user_id now u else u }

/-- Embedding of `create_or_get_user` (`crud.py`). The anonymous identifier
generated from the md5 of the current time is passed in as `anon_id`, and the
autoincremented primary key as `new_id`; `now` is the row-creation time. -/
def create_or_get_user (db : DB) (user_identifier : Option String)
    (anon_id : String) (new_id : Int) (now : DateTime) : User × DB :=
  let ident := user_identifier.getD anon_id
  let anon := user_identifier.isNone
  match db.users.find? fun u => u.user_identifier = ident with
  | some u => (u, db)
  | none =>
    let u : User :=
      { id := new_id
        user_identifier := ident
        is_anonymous := anon
        total_quizzes_taken := 0
        total_correct_answers := 0
        total_answers := 0
        accuracy_rate := 0
        articles_flagged := 0
        credibility_rating_given := 0
        last_active := now }
    (u, { db with users := db.users ++ [u] })

/-- One iteration of the answer loop in `create_user_response` (`crud.py`):
look the question up; if absent the answer is skipped, otherwise mark it
correct when the selected option matches and stage a `UserAnswer` row. The
accumulator carries `correct_count` and the staged rows. -/
def score_answer_step (db : DB) (response_id : Int)
    (acc : Nat × List UserAnswer) (ans : AnswerSubmission) : Nat × List UserAnswer :=
  match db.questions.find? fun q => q.id = ans.question_id with
  | none => acc
  | some q =>
    let correct := ans.selected_option == q.correct_option
    (acc.1 + (if correct then 1 else 0),
     acc.2 ++ [{ response_id := response_id
                 question_id := ans.question_id
                 selected_option := ans.selected_option
                 is_correct := correct
                 time_taken_seconds := ans.time_taken_seconds }])

/-- Embedding of `create_user_response` (`crud.py`): resolve the quiz (raising
`ValueError` — modelled as `Except.error` — when absent, before any write),
set `total_questions = len(submission.answers)`, process the answers, then
finalize the response's score and run the two aggregators. `now` stands for
the row-creation time (`datetime.utcnow()`). -/
def create_user_response (db : DB) (sub : QuizSubmission) (now : DateTime) :
    Except String (UserResponse × DB) :=
  match get_quiz_by_id db sub.quiz_id with
  | none => .error "Quiz not found"
  | some quiz =>
    let total_questions := sub.answers.length
    let rid := db.next_response_id
    let scored := sub.answers.foldl (score_answer_step db rid) (0, [])
    let correct_count := scored.1
    let resp : UserResponse :=
      { id := rid
        user_id := sub.user_id
        article_id := quiz.article_id
        quiz_id := sub.quiz_id
        total_questions := total_questions
        correct_answers := correct_count
        score_percentage :=
          if 0 < total_questions then
            (correct_count : ℚ) / (total_questions : ℚ) * 100
          else 0
        user_credibility_rating := sub.user_credibility_rating
        user_flagged_as_misinformation := sub.user_flagged_as_misinformation
        user_confidence_level := sub.user_confidence_level
        user_comments := sub.user_comments
        time_taken_seconds := sub.total_time_seconds
        completed_at := now }
    let db1 : DB :=
      { db with
        responses := db.responses ++ [resp]
        answers := db.answers ++ scored.2
        next_response_id := rid + 1 }
    let db2 := update_article_credibility db1 quiz.article_id
    let db3 := update_user_statistics db2 sub.user_id now
    .ok (resp, db3)

/-- Result payload of the `/api/submit-quiz` endpoint (`QuizResultResponse`). -/
structure QuizResult where
  response_id : Int
  quiz_id : Int
  total_questions : Nat
  correct_answers : Nat
  score_percentage : ℚ
  user_credibility_rating : Int
  article_credibility_score : ℚ
  community_consensus : String
  deriving Repr, DecidableEq

/-- Embedding of the `submit_quiz` endpoint (`main.py`): run
`create_user_response`; a `ValueError` becomes an HTTP 400 with no state
committed (the raise in `create_user_response` happens before any write), and
on success the response payload carries the score, the updated article
credibility and the submission-side consensus label. The impossible case of
the article row missing right after a successful submission (an
`AttributeError` turned into HTTP 500 in the source) is mapped to an error. -/
def submit_quiz (db : DB) (sub : QuizSubmission) (now : DateTime) :
    DB × Except String QuizResult :=
  match create_user_response db sub now with
  | .error e => (db, .error e)
  | .ok (resp, db1) =>
    match get_article_by_id db1 resp.article_id with
    | none => (db1, .error "article missing after submission")
    | some article =>
      let consensus :=
        if 70 ≤ article.credibility_score then "likely_credible"
        else if 40 ≤ article.credibility_score then "possibly_misleading"
        else "likely_fake"
      (db1, .ok
        { response_id := resp.id
          quiz_id := resp.quiz_id
          total_questions := resp.total_questions
          correct_answers := resp.correct_answers
          score_percentage := resp.score_percentage
          user_credibility_rating := resp.user_credibility_rating
          article_credibility_score := article.credibility_score
          community_consensus := consensus })

/-- Embedding of `create_misinformation_flag` (`crud.py`): persist the flag
row, then re-aggregate the flagged article. No user row is touched. -/
def create_misinformation_flag (db : DB) (fd : MisinformationFlagCreate) :
    MisinformationFlag × DB :=
  let flag : MisinformationFlag :=
    { id := db.next_flag_id
      article_id := fd.article_id
      user_id := fd.user_id
      flag_type := fd.flag_type
      severity := fd.severity
      reasoning := fd.reasoning
      evidence_provided := fd.evidence_provided }
  let db1 : DB := { db with flags := db.flags ++ [flag], next_flag_id := db.next_flag_id + 1 }
  (flag, update_article_credibility db1 fd.article_id)

/-- Insertion of a date into a strictly descending duplicate-free list.
Folding it over a list embeds Python's `sorted(list(set(dates)), reverse=True)`
from `calculate_streak`: the result is the distinct dates in descending order. -/
def insert_date_desc (x : Int) : List Int → List Int
  | [] => [x]
  | y :: ys =>
    if y < x then x :: y :: ys
    else if x = y then y :: ys
    else y :: insert_date_desc x ys

/-- Distinct calendar dates sorted descending, as `calculate_streak` builds
them. -/
def sorted_dates_desc (dates : List Int) : List Int :=
  dates.foldr insert_date_desc []

/-- The `for i in range(len(dates) - 1)` loop of `calculate_streak`, phrased
over the remaining list: each adjacent pair with difference exactly one
increments the streak, a difference greater than one breaks the loop, and any
other difference moves on without incrementing (unreachable after the
sort-and-dedup, but kept faithful to the source). -/
def streak_loop : List Int → Nat
  | [] => 0
  | [_] => 0
  | a :: b :: rest =>
    let diff := a - b
    if diff = 1 then 1 + streak_loop (b :: rest)
    else if 1 < diff then 0
    else streak_loop (b :: rest)

/-- Embedding of `calculate_streak` (`crud.py`): 0 for no responses, else one
plus the loop over the distinct descending dates of the completion
timestamps. -/
def calculate_streak (responses : List UserResponse) : Nat :=
  if responses.isEmpty then 0
  else
    match sorted_dates_desc (responses.map fun r => r.completed_at.day) with
    | [] => 0
    | dates => 1 + streak_loop dates

/-- Reference streak run following the spec's words: starting from the most
recent date, a gap of exactly one day extends the run and any other gap ends
it. -/
def spec_streak_run : Int → List Int → Nat
  | _, [] => 0
  | prev, d :: rest => if prev - d = 1 then 1 + spec_streak_run d rest else 0

/-- Reference streak definition following the spec's words: distinct calendar
dates sorted descending; count of the consecutive-day run starting at the most
recent date; 0 for an empty set of dates. -/
def streak_spec (dates : List Int) : Nat :=
  match sorted_dates_desc dates with
  | [] => 0
  | d :: rest => 1 + spec_streak_run d rest

/-- Embedding of `get_user_achievements` (`crud.py`), restricted to the badge
identifiers (the display metadata attached to each badge is constant text and
plays no role in which badges unlock). Conditions and order are those of the
source: quiz-count tiers, accuracy tiers, flag tiers, then streak tiers
computed from the user's responses. -/
def get_user_achievements (db : DB) (user_id : Int) : List String :=
  match get_user_by_id db user_id with
  | none => []
  | some user =>
    let streak := calculate_streak (db.responses.filter fun r => r.user_id = user_id)
    (if 1 ≤ user.total_quizzes_taken then ["first_quiz"] else [])
    ++ (if 5 ≤ user.total_quizzes_taken then ["getting_started"] else [])
    ++ (if 10 ≤ user.total_quizzes_taken then ["quiz_master"] else [])
    ++ (if 25 ≤ user.total_quizzes_taken then ["dedicated"] else [])
    ++ (if 50 ≤ user.total_quizzes_taken then ["quiz_legend"] else [])
    ++ (if 70 ≤ user.accuracy_rate then ["good_eye"] else [])
    ++ (if 80 ≤ user.accuracy_rate then ["sharp_eye"] else [])
    ++ (if 90 ≤ user.accuracy_rate then ["eagle_eye"] else [])
    ++ (if 95 ≤ user.accuracy_rate then ["perfectionist"] else [])
    ++ (if 1 ≤ user.articles_flagged then ["vigilant"] else [])
    ++ (if 5 ≤ user.articles_flagged then ["fact_checker"] else [])
    ++ (if 10 ≤ user.articles_flagged then ["truth_seeker"] else [])
    ++ (if 3 ≤ streak then ["consistent"] else [])
    ++ (if 7 ≤ streak then ["weekly_warrior"] else [])
    ++ (if 14 ≤ streak then ["unstoppable"] else [])

/-- Ranking key of the leaderboard: the composite score
`total_quizzes_taken * accuracy_rate`. -/
def composite_score (u : User) : ℚ :=
  (u.total_quizzes_taken : ℚ) * u.accuracy_rate

/-- Ordering relation realising Python's stable
`sorted(users, key=composite, reverse=True)`: `u` may precede `v` exactly when
`u`'s key is at least `v`'s; inserting earlier-enumerated elements in front of
equal keys makes the sort stable. -/
def lb_before (u v : User) : Prop :=
  composite_score v ≤ composite_score u

instance : DecidableRel lb_before :=
  fun u v => inferInstanceAs (Decidable (composite_score v ≤ composite_score u))

instance : IsTotal User lb_before :=
  ⟨fun u v => le_total (composite_score v) (composite_score u)⟩

instance : IsTrans User lb_before :=
  ⟨fun _ _ _ hab hbc => le_trans hbc hab⟩

/-- Python's `int(...)` on a (non-negative in practice) rational: truncation
toward zero. -/
def py_int (q : ℚ) : Int :=
  q.num.tdiv (q.den : Int)

/-- One entry of the leaderboard payload built by `get_leaderboard`. -/
structure LeaderboardEntry where
  rank : Nat
  user_identifier : String
  total_quizzes : Nat
  accuracy_rate : ℚ
  total_correct : Nat
  flags_submitted : Nat
  score : Int
  deriving Repr, DecidableEq

/-- Rendering of one user at a given rank, as in the loop of
`get_leaderboard`; anonymous users get the masked label. -/
def render_entry (rank : Nat) (u : User) : LeaderboardEntry :=
  { rank := rank
    user_identifier :=
      if u.is_anonymous then "Anonymous #" ++ toString u.id else u.user_identifier
    total_quizzes := u.total_quizzes_taken
    accuracy_rate := u.accuracy_rate
    total_correct := u.total_correct_answers
    flags_submitted := u.articles_flagged
    score := py_int (composite_score u) }

/-- The `for idx, user in enumerate(sorted_users, 1)` loop of
`get_leaderboard`. -/
def build_leaderboard : Nat → List User → List LeaderboardEntry
  | _, [] => []
  | rank, u :: rest => render_entry rank u :: build_leaderboard (rank + 1) rest

/-- Embedding of `get_leaderboard` (`crud.py`): filter the users with at least
one quiz taken, stably sort them descending by the composite score, truncate
to `limit`, and render the entries with 1-based ranks. -/
def get_leaderboard (db : DB) (limit : Nat) : List LeaderboardEntry :=
  let users := db.users.filter fun u => 1 ≤ u.total_quizzes_taken
  let sorted_users := (List.insertionSort lb_before users).take limit
  build_leaderboard 1 sorted_users

/-- Number of submitted answers whose question id resolves to an existing
question and whose selected option matches that question's correct option:
the quantity `correct_count` accumulated by the answer loop of
`create_user_response`. -/
def resolved_correct_count (db : DB) (l : List AnswerSubmission) : Nat :=
  (l.filter fun a =>
    match db.questions.find? fun q => q.id = a.question_id with
    | none => false
    | some q => a.selected_option == q.correct_option).length

/-- Number of submitted answers whose question id resolves to an existing
question (the denominator the spec prescribes for the score). -/
def resolved_answer_count (db : DB) (l : List AnswerSubmission) : Nat :=
  (l.filter fun a =>
    (db.questions.find? fun q => q.id = a.question_id).isSome).length

/-- User record with the `last_active` timestamp replaced by a fixed value,
used to compare user records up to `last_active`. -/
def erase_last_active (u : User) : User :=
  { u with last_active := ⟨0, 0⟩ }

/-- The accuracy invariant of the data model: `accuracy_rate` is the function
`total_correct_answers / total_answers * 100` of the two stored totals, and 0
when `total_answers` is 0. -/
def user_inv (u : User) : Prop :=
  u.accuracy_rate =
    if 0 < u.total_answers then
      (u.total_correct_answers : ℚ) / (u.total_answers : ℚ) * 100
    else 0

instance (u : User) : Decidable (user_inv u) := by
  unfold user_inv; infer_instance

/-- The accuracy invariant holding of every user row of the state. -/
def db_user_inv (db : DB) : Prop :=
  ∀ u ∈ db.users, user_inv u

instance (db : DB) : Decidable (db_user_inv db) := by
  unfold db_user_inv; exact List.decidableBAll _ _

/-- Shorthand for a midnight timestamp on a given calendar day. -/
def dt (d : Int) : DateTime := ⟨d, 0⟩

/-- Blank response completed on day `d`, used as a base for fixtures. -/
def day_response (d : Int) : UserResponse :=
  { id := 0, user_id := 0, article_id := 0, quiz_id := 0, total_questions := 0,
    correct_answers := 0, score_percentage := 0, user_credibility_rating := 0,
    user_flagged_as_misinformation := false, user_confidence_level := 0,
    user_comments := none, time_taken_seconds := none, completed_at := ⟨d, 0⟩ }

/-- Fixture: state with quiz 1 over article 1 and no questions at all. -/
def db_c1 : DB :=
  ⟨[⟨1, 0, 0, 0, 0⟩], [⟨1, 1⟩], [], [⟨1, "u", false, 0, 0, 0, 0, 0, 0, ⟨0, 0⟩⟩],
    [], [], [], 1, 1⟩

/-- Fixture: submission to quiz 1 with a single answer referencing the absent
question 99. -/
def sub_c1 : QuizSubmission :=
  ⟨1, 1, [⟨99, 1, none⟩], 3, false, 2, none, none⟩

/-- Fixture: state with quiz 1 over article 1 and one question (id 5, correct
option 2). -/
def db_w1 : DB :=
  ⟨[⟨1, 0, 0, 0, 0⟩], [⟨1, 1⟩], [⟨5, 1, 2⟩],
    [⟨1, "u", false, 0, 0, 0, 0, 0, 0, ⟨0, 0⟩⟩], [], [], [], 1, 1⟩

/-- Fixture: submission with one resolving correct answer and one answer
referencing the absent question 99. -/
def sub_w1 : QuizSubmission :=
  ⟨1, 1, [⟨5, 2, none⟩, ⟨99, 1, none⟩], 4, false, 3, none, none⟩

/-- Fixture: state with user 1 holding one response (1 of 2 correct). -/
def db_c2 : DB :=
  ⟨[], [], [], [⟨1, "u", false, 0, 0, 0, 0, 0, 0, ⟨0, 0⟩⟩],
    [{ day_response 0 with
       user_id := 1
       total_questions := 2
       correct_answers := 1 }], [], [], 2, 1⟩

/-- Fixture: state whose single user satisfies the accuracy invariant (all
statistics still at their defaults) while already holding one response. -/
def db_w3 : DB :=
  ⟨[], [], [], [⟨1, "u", false, 0, 0, 0, 0, 0, 0, ⟨0, 0⟩⟩],
    [{ day_response 0 with
       user_id := 1
       total_questions := 2
       correct_answers := 1 }], [], [], 2, 1⟩

/-- Fixture: response for article 1 with a given rating, confidence and
misinformation flag. -/
def resp_db4 (rating conf : Int) (flag : Bool) : UserResponse :=
  { day_response 0 with
    id := 1
    article_id := 1
    user_credibility_rating := rating
    user_confidence_level := conf
    user_flagged_as_misinformation := flag }

/-- Fixture: article 1 with responses `(rating 5, weight 5)` (flagged) and
`(rating 1, weight 1)` (not flagged). -/
def db4 : DB :=
  ⟨[⟨1, 0, 0, 0, 0⟩], [], [], [], [resp_db4 5 5 true, resp_db4 1 1 false],
    [], [], 1, 1⟩

/-- Fixture: article 1 with prior derived values and a response that belongs
to a different article, so article 1 has no responses. -/
def db5 : DB :=
  ⟨[⟨1, 55, 7, 3, 4⟩], [], [], [], [{ day_response 0 with article_id := 2 }],
    [], [], 1, 1⟩

/-- Fixture: state with no quizzes at all. -/
def db_c6 : DB := ⟨[], [], [], [], [], [], [], 1, 1⟩

/-- Fixture: user with 10 quizzes taken, 92 percent accuracy and no flags. -/
def user8 : User := ⟨1, "u", false, 10, 92, 100, 92, 0, 10, ⟨0, 0⟩⟩

/-- Fixture: state holding only `user8`, with no responses (streak 0). -/
def db8 : DB := ⟨[], [], [], [user8], [], [], [], 1, 1⟩

/-- Fixture: anonymous user A with 10 quizzes at 50 percent accuracy
(composite 500). -/
def userA : User := ⟨1, "alice", true, 10, 50, 100, 50, 0, 10, ⟨0, 0⟩⟩

/-- Fixture: authenticated user B with 4 quizzes at 90 percent accuracy
(composite 360). -/
def userB : User := ⟨2, "bob", false, 4, 36, 40, 90, 0, 4, ⟨0, 0⟩⟩

/-- Fixture: state holding users B then A (A must still rank first). -/
def db_ab : DB := ⟨[], [], [], [userB, userA], [], [], [], 1, 1⟩

/-- Fixture: user C with 2 quizzes at 45 percent accuracy (composite 90). -/
def userC : User := ⟨3, "carol", false, 2, 9, 20, 45, 0, 2, ⟨0, 0⟩⟩

/-- Fixture: user D with 1 quiz at 90 percent accuracy (composite 90, tied
with C). -/
def userD : User := ⟨4, "dave", false, 1, 9, 10, 90, 0, 1, ⟨0, 0⟩⟩

/-- Fixture: state holding the composite-tied users C then D (the stable sort
must keep C first). -/
def db_tie : DB := ⟨[], [], [], [userC, userD], [], [], [], 1, 1⟩

/-- Fixture: article 1 plus user 1 who already has one quiz response and no
flags yet. -/
def db_w10 : DB :=
  ⟨[⟨1, 0, 0, 0, 0⟩], [], [],
    [⟨1, "u", false, 1, 1, 2, 50, 0, 1, ⟨0, 0⟩⟩],
    [{ day_response 0 with
       user_id := 1
       article_id := 1
       total_questions := 2
       correct_answers := 1 }], [], [], 2, 1⟩

/-- Fixture: flag by user 1 against article 1. -/
def fd_w10 : MisinformationFlagCreate :=
  ⟨1, 1, "fake_news", 4, "the headline contradicts the cited study", none⟩

/-- Finding by a predicate invariant under `f` commutes with mapping `f`. -/
theorem find?_map_congr {α : Type} (f : α → α) (p : α → Bool) (l : List α)
    (hp : ∀ x, p (f x) = p x) :
    (l.map f).find? p = (l.find? p).map f := by
  rw [List.find?_map]
  have hfe : p ∘ f = p := funext hp
  rw [hfe]

/-- Case analysis for `update_user_statistics`: either the state is unchanged
(missing user or no responses), or exactly the matching user rows are replaced
by their recomputed records. -/
theorem update_user_statistics_cases (db : DB) (uid : Int) (t : DateTime) :
    update_user_statistics db uid t = db ∨
      update_user_statistics db uid t =
        { db with
          users := db.users.map fun u =>
            if u.id = uid then recompute_user_record db uid t u else u } := by
  unfold update_user_statistics
  cases get_user_by_id db uid with
  | none => exact Or.inl rfl
  | some u0 =>
    by_cases he : ((user_responses db uid).isEmpty : Bool)
    · exact Or.inl (by simp [he])
    · exact Or.inr (by simp [he])

/-- Case analysis for `update_article_credibility`: either the state is
unchanged (missing article or no responses), or exactly the matching article
rows are replaced by their recomputed records. -/
theorem update_article_credibility_cases (db : DB) (aid : Int) :
    update_article_credibility db aid = db ∨
      update_article_credibility db aid =
        { db with
          articles := db.articles.map fun a =>
            if a.id = aid then
              recompute_article_record (article_responses db aid) a
            else a } := by
  unfold update_article_credibility
  cases get_article_by_id db aid with
  | none => exact Or.inl rfl
  | some a0 =>
    by_cases he : ((article_responses db aid).isEmpty : Bool)
    · exact Or.inl (by simp [he])
    · exact Or.inr (by simp [he])

/-- Re-aggregating an article never touches the user rows. -/
theorem update_article_credibility_users (db : DB) (aid : Int) :
    (update_article_credibility db aid).users = db.users := by
  rcases update_article_credibility_cases db aid with h | h <;> rw [h]

/-- Re-aggregating a user never touches any other table of the state. -/
theorem update_user_statistics_frame (db : DB) (uid : Int) (t : DateTime) :
    (update_user_statistics db uid t).articles = db.articles ∧
    (update_user_statistics db uid t).quizzes = db.quizzes ∧
    (update_user_statistics db uid t).questions = db.questions ∧
    (update_user_statistics db uid t).responses = db.responses ∧
    (update_user_statistics db uid t).answers = db.answers ∧
    (update_user_statistics db uid t).flags = db.flags ∧
    (update_user_statistics db uid t).next_response_id = db.next_response_id ∧
    (update_user_statistics db uid t).next_flag_id = db.next_flag_id := by
  rcases update_user_statistics_cases db uid t with h | h <;> rw [h] <;>
    exact ⟨rfl, rfl, rfl, rfl, rfl, rfl, rfl, rfl⟩

/-- The branch of `update_article_credibility` taken when the article exists
and has at least one response. -/
theorem update_article_credibility_of_found (db : DB) (aid : Int) (a : Article)
    (ha : get_article_by_id db aid = some a)
    (hne : article_responses db aid ≠ []) :
    update_article_credibility db aid =
      { db with
        articles := db.articles.map fun a =>
          if a.id = aid then
            recompute_article_record (article_responses db aid) a
          else a } := by
  unfold update_article_credibility
  rw [ha]
  simp [List.isEmpty_iff, hne]

/-- The branch of `update_user_statistics` taken when the user exists and has
at least one response. -/
theorem update_user_statistics_of_found (db : DB) (uid : Int) (t : DateTime) (u0 : User)
    (hu : get_user_by_id db uid = some u0)
    (hne : user_responses db uid ≠ []) :
    update_user_statistics db uid t =
      { db with
        users := db.users.map fun u =>
          if u.id = uid then recompute_user_record db uid t u else u } := by
  unfold update_user_statistics
  rw [hu]
  simp [List.isEmpty_iff, hne]

/-- C5: when an existing article has no responses, `update_article_credibility`
leaves the whole state — in particular every derived field of the article —
unchanged at its prior value, and no division is attempted. -/
theorem c5_zero_responses_frame (db : DB) (aid : Int)
    (h : article_responses db aid = []) :
    update_article_credibility db aid = db := by
  unfold update_article_credibility
  cases get_article_by_id db aid with
  | none => rfl
  | some a => simp [h]

/-- Witness for C5: article 1 of `db5` has prior derived values and no
responses; re-aggregation leaves the state untouched. -/
theorem c5_zero_responses_frame_witness :
    update_article_credibility db5 1 = db5 :=
  c5_zero_responses_frame db5 1 (by decide)

/-- C6: when the submitted quiz id is unknown, `create_user_response` raises
(no partial write is possible: the error carries no state), and the
`submit_quiz` endpoint returns the original state unchanged together with the
rejection. -/
theorem c6_unknown_quiz_rejected (db : DB) (sub : QuizSubmission) (now : DateTime)
    (h : get_quiz_by_id db sub.quiz_id = none) :
    create_user_response db sub now = .error "Quiz not found" ∧
    submit_quiz db sub now = (db, .error "Quiz not found") := by
  have h1 : create_user_response db sub now = .error "Quiz not found" := by
    unfold create_user_response
    rw [h]
  refine ⟨h1, ?_⟩
  unfold submit_quiz
  rw [h1]

/-- Witness for C6: submitting against the quiz-free state `db_c6` is
rejected with no state change. -/
theorem c6_unknown_quiz_rejected_witness :
    create_user_response db_c6 sub_c1 (dt 0) = .error "Quiz not found" ∧
    submit_quiz db_c6 sub_c1 (dt 0) = (db_c6, .error "Quiz not found") :=
  c6_unknown_quiz_rejected db_c6 sub_c1 (dt 0) (by decide)

/-- C8: a user with 10 quizzes taken, 92 percent accuracy, no flags and no
streak unlocks exactly the quiz-tier badges for 1, 5 and 10 and the
accuracy-tier badges for 70, 80 and 90 — six badges, with no 25/50 quiz
badge, no 95 accuracy badge, and no flag or streak badge. -/
theorem c8_achievements_example :
    get_user_achievements db8 1 =
      ["first_quiz", "getting_started", "quiz_master",
       "good_eye", "sharp_eye", "eagle_eye"] := by
  decide

/-- Recomputing an article's record does not change its id. -/
theorem recompute_article_record_id (rs : List UserResponse) (a : Article) :
    (recompute_article_record rs a).id = a.id := rfl

/-- C4: over a non-empty response set with positive weight sum,
`update_article_credibility` sets the article's credibility score to the
weighted average `sum(rating * weight) / sum(weight) * 20` of the
`(user_credibility_rating, user_confidence_level)` pairs, its total_responses
to the response count, flagged_as_misinformation to the count of flagged
responses and flagged_as_credible to the count of unflagged ones. -/
theorem c4_weighted_credibility (db : DB) (aid : Int) (a : Article)
    (ha : get_article_by_id db aid = some a)
    (hne : article_responses db aid ≠ [])
    (hw : 0 < article_total_weight (article_responses db aid)) :
    get_article_by_id (update_article_credibility db aid) aid =
      some
        { a with
          credibility_score :=
            (article_weighted_sum (article_responses db aid) : ℚ) /
              (article_total_weight (article_responses db aid) : ℚ) * 20
          total_responses := (article_responses db aid).length
          flagged_as_misinformation :=
            ((article_responses db aid).filter
              fun r => r.user_flagged_as_misinformation).length
          flagged_as_credible :=
            ((article_responses db aid).filter
              fun r => !r.user_flagged_as_misinformation).length } := by
  rw [update_article_credibility_of_found db aid a ha hne]
  have haid : a.id = aid := by
    have := List.find?_some ha
    simpa using this
  unfold get_article_by_id at ha ⊢
  rw [find?_map_congr _ _ _ fun x => by
    by_cases hx : x.id = aid <;>
      simp [hx, recompute_article_record_id]]
  rw [ha, Option.map_some']
  rw [if_pos haid]
  unfold recompute_article_record
  rw [if_pos hw]

/-- Witness for C4: article 1 of `db4` has responses
`(rating 5, weight 5)` and `(rating 1, weight 1)`, one of them flagged, and
ends up with credibility `(25 + 1) / 6 * 20 = 260/3 ≈ 86.67`, two responses,
one misinformation flag and one credible flag. -/
theorem c4_weighted_credibility_witness :
    get_article_by_id (update_article_credibility db4 1) 1 =
      some ⟨1, 260 / 3, 2, 1, 1⟩ := by
  rw [c4_weighted_credibility db4 1 ⟨1, 0, 0, 0, 0⟩ (by decide) (by decide) (by decide)]
  have hws : article_weighted_sum (article_responses db4 1) = (26 : ℤ) := rfl
  have htw : article_total_weight (article_responses db4 1) = (6 : ℤ) := rfl
  rw [hws, htw]
  norm_num [Article.mk.injEq]
  exact ⟨by decide, by decide, by decide⟩

/-- The `correct_count` accumulated by the answer loop equals the accumulator
plus the number of submitted answers that resolve to an existing question and
match its correct option. -/
theorem score_answers_fst (db : DB) (rid : Int) (l : List AnswerSubmission) :
    ∀ acc : Nat × List UserAnswer,
      (l.foldl (score_answer_step db rid) acc).1 = acc.1 + resolved_correct_count db l := by
  induction l with
  | nil => intro acc; simp [resolved_correct_count]
  | cons a rest ih =>
    intro acc
    rw [List.foldl_cons, ih]
    unfold score_answer_step resolved_correct_count
    cases hq : db.questions.find? fun q => q.id = a.question_id with
    | none => simp [hq, List.filter_cons]
    | some q =>
      by_cases hc : (a.selected_option == q.correct_option : Bool)
      · simp [hq, hc, List.filter_cons]
        omega
      · simp [hq, hc, List.filter_cons]

/-- Counterexample to C1: in `db_c1` quiz 1 exists but question 99 does not;
submitting the single answer for question 99 persists a response with
`total_questions = 1` even though zero submitted answers resolve, so
`total_questions` is not the resolved count. -/
theorem c1_counterexample :
    ((create_user_response db_c1 sub_c1 (dt 0)).toOption.map fun p => p.1.total_questions) =
      some 1 ∧
    resolved_answer_count db_c1 sub_c1.answers = 0 :=
  ⟨rfl, rfl⟩

/-- C1 (amended): for every submission whose quiz resolves, the persisted
response has `total_questions` equal to the number of submitted answers
(answers referencing absent questions still count toward the denominator and
score as incorrect), `correct_answers` equal to the number of answers that
resolve and match the correct option, and `score_percentage` equal to
`correct_answers / total_questions * 100` over the submitted-answer count, or
0 when no answers were submitted. -/
theorem c1_scoring_amended (db : DB) (sub : QuizSubmission) (now : DateTime)
    (h : (get_quiz_by_id db sub.quiz_id).isSome) :
    ((create_user_response db sub now).toOption.map fun p => p.1.total_questions) =
      some sub.answers.length ∧
    ((create_user_response db sub now).toOption.map fun p => p.1.correct_answers) =
      some (resolved_correct_count db sub.answers) ∧
    ((create_user_response db sub now).toOption.map fun p => p.1.score_percentage) =
      some (if 0 < sub.answers.length then
              (resolved_correct_count db sub.answers : ℚ) / (sub.answers.length : ℚ) * 100
            else 0) := by
  obtain ⟨quiz, hq⟩ := Option.isSome_iff_exists.mp h
  have hs := score_answers_fst db db.next_response_id sub.answers (0, [])
  unfold create_user_response
  rw [hq]
  dsimp only
  rw [hs]
  simp only [Nat.zero_add]
  exact ⟨rfl, rfl, rfl⟩

/-- Witness for C1 (amended): in `db_w1` the submission `sub_w1` has two
answers, one resolving and correct, one referencing an absent question; the
persisted response scores 1 of 2 for 50 percent. -/
theorem c1_scoring_amended_witness :
    ((create_user_response db_w1 sub_w1 (dt 0)).toOption.map fun p => p.1.total_questions) =
      some 2 ∧
    ((create_user_response db_w1 sub_w1 (dt 0)).toOption.map fun p => p.1.correct_answers) =
      some 1 ∧
    ((create_user_response db_w1 sub_w1 (dt 0)).toOption.map fun p => p.1.score_percentage) =
      some 50 := by
  have h := c1_scoring_amended db_w1 sub_w1 (dt 0) (by decide)
  have hr : resolved_correct_count db_w1 sub_w1.answers = 1 := rfl
  have hl : sub_w1.answers.length = 2 := rfl
  refine ⟨h.1, ?_, ?_⟩
  · rw [h.2.1, hr]
  · rw [h.2.2, hr, hl]
    norm_num

/-- Recomputing a user's record does not change the user's id. -/
theorem recompute_user_record_id (db : DB) (uid : Int) (t : DateTime) (u : User) :
    (recompute_user_record db uid t u).id = u.id := rfl

/-- Running the user recomputation twice in a row is absorbed by the second
run: the first run changes neither the responses nor the flags the second one
reads, and recomputing an already-recomputed record gives the same record. -/
theorem update_user_statistics_twice (db : DB) (uid : Int) (t1 t2 : DateTime) :
    update_user_statistics (update_user_statistics db uid t1) uid t2 =
      update_user_statistics db uid t2 := by
  cases hfind : get_user_by_id db uid with
  | none =>
    have h1 : update_user_statistics db uid t1 = db := by
      unfold update_user_statistics; rw [hfind]
    rw [h1]
  | some u0 =>
    by_cases he : ((user_responses db uid).isEmpty : Bool)
    · have h1 : update_user_statistics db uid t1 = db := by
        unfold update_user_statistics; rw [hfind]; simp [he]
      rw [h1]
    · have hne : user_responses db uid ≠ [] := by
        simpa [List.isEmpty_iff] using he
      rw [update_user_statistics_of_found db uid t1 u0 hfind hne]
      have hg : get_user_by_id
          { db with users := db.users.map fun u =>
              if u.id = uid then recompute_user_record db uid t1 u else u } uid =
          some (if u0.id = uid then recompute_user_record db uid t1 u0 else u0) := by
        unfold get_user_by_id at hfind ⊢
        dsimp only
        rw [find?_map_congr _ _ _ fun x => by
          by_cases hx : x.id = uid <;> simp [hx, recompute_user_record_id]]
        rw [hfind, Option.map_some']
      rw [update_user_statistics_of_found _ uid t2 _ hg hne]
      rw [update_user_statistics_of_found db uid t2 u0 hfind hne]
      have husers :
          ((db.users.map fun u =>
              if u.id = uid then recompute_user_record db uid t1 u else u).map
            fun u => if u.id = uid then
                recompute_user_record
                  { db with users := db.users.map fun u =>
                      if u.id = uid then recompute_user_record db uid t1 u else u }
                  uid t2 u
              else u) =
          db.users.map fun u => if u.id = uid then recompute_user_record db uid t2 u else u := by
        rw [List.map_map]
        refine congrArg (db.users.map ·) (funext fun u => ?_)
        by_cases hu : u.id = uid
        · simp only [Function.comp_apply, if_pos hu]
          rw [if_pos (show (recompute_user_record db uid t1 u).id = uid from hu)]
          rfl
        · simp only [Function.comp_apply, if_neg hu]
      exact congrArg (fun l => ({ db with users := l } : DB)) husers

/-- The users produced by a user recomputation do not depend on the call time
except in their `last_active` field. -/
theorem update_user_statistics_users_erase (db : DB) (uid : Int) (t1 t2 : DateTime) :
    (update_user_statistics db uid t2).users.map erase_last_active =
      (update_user_statistics db uid t1).users.map erase_last_active := by
  cases hfind : get_user_by_id db uid with
  | none =>
    have h1 : update_user_statistics db uid t1 = db := by
      unfold update_user_statistics; rw [hfind]
    have h2 : update_user_statistics db uid t2 = db := by
      unfold update_user_statistics; rw [hfind]
    rw [h1, h2]
  | some u0 =>
    by_cases he : ((user_responses db uid).isEmpty : Bool)
    · have h1 : update_user_statistics db uid t1 = db := by
        unfold update_user_statistics; rw [hfind]; simp [he]
      have h2 : update_user_statistics db uid t2 = db := by
        unfold update_user_statistics; rw [hfind]; simp [he]
      rw [h1, h2]
    · have hne : user_responses db uid ≠ [] := by
        simpa [List.isEmpty_iff] using he
      rw [update_user_statistics_of_found db uid t1 u0 hfind hne,
        update_user_statistics_of_found db uid t2 u0 hfind hne]
      dsimp only
      rw [List.map_map, List.map_map]
      refine congrArg (db.users.map ·) (funext fun u => ?_)
      by_cases hu : u.id = uid
      · simp only [Function.comp_apply, if_pos hu]
        rfl
      · simp only [Function.comp_apply, if_neg hu]

/-- Counterexample to C2: in `db_c2` user 1 has a response, so each run of
`update_user_statistics` stamps `last_active` with its own current time; two
back-to-back runs at different times therefore do not yield an identical user
record. -/
theorem c2_counterexample :
    ((update_user_statistics (update_user_statistics db_c2 1 (dt 0)) 1 (dt 1)).users.map
        fun u => u.last_active) ≠
      ((update_user_statistics db_c2 1 (dt 0)).users.map fun u => u.last_active) := by
  decide

/-- C2 (amended): `update_user_statistics` run twice in a row with no new
responses or flags in between yields a state identical to the state after the
first run in every table and every user field except `last_active`, which is
restamped with the second call's current time. -/
theorem c2_recompute_idempotent_amended (db : DB) (uid : Int) (t1 t2 : DateTime) :
    (update_user_statistics (update_user_statistics db uid t1) uid t2).articles =
      (update_user_statistics db uid t1).articles ∧
    (update_user_statistics (update_user_statistics db uid t1) uid t2).quizzes =
      (update_user_statistics db uid t1).quizzes ∧
    (update_user_statistics (update_user_statistics db uid t1) uid t2).questions =
      (update_user_statistics db uid t1).questions ∧
    (update_user_statistics (update_user_statistics db uid t1) uid t2).responses =
      (update_user_statistics db uid t1).responses ∧
    (update_user_statistics (update_user_statistics db uid t1) uid t2).answers =
      (update_user_statistics db uid t1).answers ∧
    (update_user_statistics (update_user_statistics db uid t1) uid t2).flags =
      (update_user_statistics db uid t1).flags ∧
    (update_user_statistics (update_user_statistics db uid t1) uid t2).next_response_id =
      (update_user_statistics db uid t1).next_response_id ∧
    (update_user_statistics (update_user_statistics db uid t1) uid t2).next_flag_id =
      (update_user_statistics db uid t1).next_flag_id ∧
    (update_user_statistics (update_user_statistics db uid t1) uid t2).users.map
        erase_last_active =
      (update_user_statistics db uid t1).users.map erase_last_active := by
  rw [update_user_statistics_twice]
  obtain ⟨a2, q2, qs2, r2, an2, f2, n2, m2⟩ := update_user_statistics_frame db uid t2
  obtain ⟨a1, q1, qs1, r1, an1, f1, n1, m1⟩ := update_user_statistics_frame db uid t1
  exact ⟨by rw [a2, a1], by rw [q2, q1], by rw [qs2, qs1], by rw [r2, r1],
    by rw [an2, an1], by rw [f2, f1], by rw [n2, n1], by rw [m2, m1],
    update_user_statistics_users_erase db uid t1 t2⟩

/-- Every record produced by the user recomputation satisfies the accuracy
invariant: its accuracy field is computed from the very totals stored next to
it. -/
theorem user_inv_recompute (db : DB) (uid : Int) (t : DateTime) (u : User) :
    user_inv (recompute_user_record db uid t u) := by
  unfold user_inv recompute_user_record
  rfl

/-- `update_user_statistics` preserves the accuracy invariant on every user. -/
theorem db_user_inv_update_user_statistics (db : DB) (uid : Int) (t : DateTime)
    (h : db_user_inv db) : db_user_inv (update_user_statistics db uid t) := by
  rcases update_user_statistics_cases db uid t with hc | hc <;> rw [hc]
  · exact h
  · intro u hu
    rcases List.mem_map.mp hu with ⟨v, hv, rfl⟩
    by_cases hv' : v.id = uid
    · rw [if_pos hv']
      exact user_inv_recompute db uid t v
    · rw [if_neg hv']
      exact h v hv

/-- `update_article_credibility` preserves the accuracy invariant (it never
touches a user row). -/
theorem db_user_inv_update_article (db : DB) (aid : Int)
    (h : db_user_inv db) : db_user_inv (update_article_credibility db aid) := by
  intro u hu
  rw [update_article_credibility_users] at hu
  exact h u hu

/-- `create_or_get_user` preserves the accuracy invariant: a freshly created
user has all totals and the accuracy rate at 0. -/
theorem db_user_inv_create_or_get_user (db : DB) (ident : Option String)
    (anon_id : String) (new_id : Int) (now : DateTime)
    (h : db_user_inv db) :
    db_user_inv (create_or_get_user db ident anon_id new_id now).2 := by
  unfold create_or_get_user
  dsimp only
  cases db.users.find? fun u => u.user_identifier = ident.getD anon_id with
  | some u => exact h
  | none =>
    intro u hu
    rcases List.mem_append.mp hu with h1 | h1
    · exact h u h1
    · rw [List.mem_singleton.mp h1]
      rfl

/-- `create_misinformation_flag` preserves the accuracy invariant (it touches
only the flags table and the article rows). -/
theorem db_user_inv_create_misinformation_flag (db : DB) (fd : MisinformationFlagCreate)
    (h : db_user_inv db) :
    db_user_inv (create_misinformation_flag db fd).2 := by
  intro u hu
  unfold create_misinformation_flag at hu
  dsimp only at hu
  rw [update_article_credibility_users] at hu
  exact h u hu

/-- A successful `create_user_response` preserves the accuracy invariant. -/
theorem db_user_inv_create_user_response (db : DB) (sub : QuizSubmission) (now : DateTime)
    (h : db_user_inv db) :
    ∀ (resp : UserResponse) (db' : DB),
      create_user_response db sub now = .ok (resp, db') → db_user_inv db' := by
  intro resp db' hok
  unfold create_user_response at hok
  cases hq : get_quiz_by_id db sub.quiz_id with
  | none => rw [hq] at hok; simp at hok
  | some quiz =>
    rw [hq] at hok
    dsimp only at hok
    rw [Except.ok.injEq, Prod.mk.injEq] at hok
    obtain ⟨-, hdb⟩ := hok
    subst hdb
    apply db_user_inv_update_user_statistics
    apply db_user_inv_update_article
    intro u hu
    exact h u hu

/-- The `submit_quiz` endpoint preserves the accuracy invariant on the
resulting state. -/
theorem db_user_inv_submit_quiz (db : DB) (sub : QuizSubmission) (now : DateTime)
    (h : db_user_inv db) : db_user_inv (submit_quiz db sub now).1 := by
  unfold submit_quiz
  cases hc : create_user_response db sub now with
  | error e => exact h
  | ok out =>
    obtain ⟨resp, db1⟩ := out
    have hinv := db_user_inv_create_user_response db sub now h resp db1 hc
    dsimp only
    cases get_article_by_id db1 resp.article_id <;> exact hinv

/-- C3: the accuracy invariant `accuracy_rate = total_correct_answers /
total_answers * 100` (0 when `total_answers = 0`) is preserved by every
state-mutating operation of the core: article re-aggregation, user
re-aggregation, user creation, flag creation, quiz submission and the submit
endpoint; no operation sets `accuracy_rate` independently of the two totals. -/
theorem c3_accuracy_invariant (db : DB) (h : db_user_inv db) :
    (∀ aid, db_user_inv (update_article_credibility db aid)) ∧
    (∀ uid t, db_user_inv (update_user_statistics db uid t)) ∧
    (∀ ident anon_id new_id now,
      db_user_inv (create_or_get_user db ident anon_id new_id now).2) ∧
    (∀ fd, db_user_inv (create_misinformation_flag db fd).2) ∧
    (∀ sub now resp db',
      create_user_response db sub now = .ok (resp, db') → db_user_inv db') ∧
    (∀ sub now, db_user_inv (submit_quiz db sub now).1) :=
  ⟨fun aid => db_user_inv_update_article db aid h,
   fun uid t => db_user_inv_update_user_statistics db uid t h,
   fun ident anon_id new_id now =>
     db_user_inv_create_or_get_user db ident anon_id new_id now h,
   fun fd => db_user_inv_create_misinformation_flag db fd h,
   fun sub now resp db' hok =>
     db_user_inv_create_user_response db sub now h resp db' hok,
   fun sub now => db_user_inv_submit_quiz db sub now h⟩

/-- Witness for C3: the invariant-satisfying state `db_w3` keeps the accuracy
invariant after recomputing user 1's statistics. -/
theorem c3_accuracy_invariant_witness :
    db_user_inv (update_user_statistics db_w3 1 (dt 5)) :=
  (c3_accuracy_invariant db_w3 (by decide)).2.1 1 (dt 5)

/-- Membership in the date insertion: an element is the inserted date or was
already present. -/
theorem mem_insert_date_desc (x a : Int) (l : List Int)
    (h : a ∈ insert_date_desc x l) : a = x ∨ a ∈ l := by
  induction l with
  | nil => simpa [insert_date_desc] using h
  | cons y ys ih =>
    unfold insert_date_desc at h
    by_cases h1 : y < x
    · rw [if_pos h1] at h
      rcases List.mem_cons.mp h with rfl | h2
      · exact Or.inl rfl
      · exact Or.inr h2
    · rw [if_neg h1] at h
      by_cases h2 : x = y
      · rw [if_pos h2] at h
        exact Or.inr h
      · rw [if_neg h2] at h
        rcases List.mem_cons.mp h with rfl | h3
        · exact Or.inr (List.mem_cons_self _ _)
        · rcases ih h3 with h4 | h4
          · exact Or.inl h4
          · exact Or.inr (List.mem_cons_of_mem _ h4)

/-- The date insertion preserves strict descending sortedness. -/
theorem pairwise_insert_date_desc (x : Int) (l : List Int)
    (h : l.Pairwise (· > ·)) : (insert_date_desc x l).Pairwise (· > ·) := by
  induction l with
  | nil => simp [insert_date_desc]
  | cons y ys ih =>
    rcases List.pairwise_cons.mp h with ⟨hy, hys⟩
    unfold insert_date_desc
    by_cases h1 : y < x
    · rw [if_pos h1]
      refine List.pairwise_cons.mpr ⟨?_, h⟩
      intro b hb
      rcases List.mem_cons.mp hb with rfl | hb2
      · exact h1
      · exact lt_trans (hy b hb2) h1
    · rw [if_neg h1]
      by_cases h2 : x = y
      · rw [if_pos h2]
        exact h
      · rw [if_neg h2]
        refine List.pairwise_cons.mpr ⟨?_, ih hys⟩
        intro b hb
        rcases mem_insert_date_desc x b ys hb with rfl | hb2
        · exact lt_of_le_of_ne (not_lt.mp h1) h2
        · exact hy b hb2

/-- The sorted distinct date list is strictly descending. -/
theorem pairwise_sorted_dates_desc (l : List Int) :
    (sorted_dates_desc l).Pairwise (· > ·) := by
  unfold sorted_dates_desc
  induction l with
  | nil => simp
  | cons x xs ih => exact pairwise_insert_date_desc x _ ih

/-- On a strictly descending date list, the faithful loop of
`calculate_streak` computes the spec's consecutive-run count: the unreachable
continue-branch for non-positive gaps never fires. -/
theorem streak_loop_eq_run (d : Int) (rest : List Int)
    (h : (d :: rest).Pairwise (· > ·)) :
    streak_loop (d :: rest) = spec_streak_run d rest := by
  induction rest generalizing d with
  | nil => rfl
  | cons b rest' ih =>
    rcases List.pairwise_cons.mp h with ⟨hd, hrest⟩
    have hdb : b < d := hd b (List.mem_cons_self _ _)
    unfold streak_loop spec_streak_run
    dsimp only
    by_cases hdiff : d - b = 1
    · rw [if_pos hdiff, if_pos hdiff, ih b hrest]
    · have h1 : 1 < d - b := by omega
      rw [if_neg hdiff, if_neg hdiff, if_pos h1]

/-- C7: `calculate_streak` coincides with the reference streak definition
(`streak_spec`, written from the spec's words) on every response list; in
particular responses on days 10, 10, 9 and 7 yield streak 2 (day 10 counted
once, day 9 contiguous, day 7 breaks the chain), and an empty response list
yields 0. -/
theorem c7_streak_matches_spec :
    (∀ responses : List UserResponse,
      calculate_streak responses =
        streak_spec (responses.map fun r => r.completed_at.day)) ∧
    calculate_streak
      [day_response 10, day_response 10, day_response 9, day_response 7] = 2 ∧
    calculate_streak [] = 0 := by
  refine ⟨?_, by decide, rfl⟩
  intro responses
  unfold calculate_streak streak_spec
  cases responses with
  | nil => rfl
  | cons r rs =>
    simp only [List.isEmpty_cons, Bool.false_eq_true, if_false]
    cases hs : sorted_dates_desc ((r :: rs).map fun r => r.completed_at.day) with
    | nil => rfl
    | cons d rest =>
      have hp := pairwise_sorted_dates_desc ((r :: rs).map fun r => r.completed_at.day)
      rw [hs] at hp
      dsimp only
      rw [streak_loop_eq_run d rest hp]

/-- Every rendered leaderboard entry comes from a user of the rendered list. -/
theorem mem_build_leaderboard (e : LeaderboardEntry) :
    ∀ (k : Nat) (l : List User), e ∈ build_leaderboard k l →
      ∃ r u, u ∈ l ∧ e = render_entry r u := by
  intro k l
  induction l generalizing k with
  | nil => intro h; simp [build_leaderboard] at h
  | cons u rest ih =>
    intro h
    unfold build_leaderboard at h
    rcases List.mem_cons.mp h with rfl | h2
    · exact ⟨k, u, List.mem_cons_self _ _, rfl⟩
    · rcases ih (k + 1) h2 with ⟨r, v, hv, he⟩
      exact ⟨r, v, List.mem_cons_of_mem _ hv, he⟩

/-- Rendering transports a pairwise relation on users to the corresponding
pairwise relation on leaderboard entries. -/
theorem pairwise_build_leaderboard (R : User → User → Prop)
    (S : LeaderboardEntry → LeaderboardEntry → Prop)
    (hRS : ∀ u v, R u v → ∀ r r', S (render_entry r u) (render_entry r' v)) :
    ∀ (k : Nat) (l : List User), l.Pairwise R → (build_leaderboard k l).Pairwise S := by
  intro k l
  induction l generalizing k with
  | nil => intro _; simp [build_leaderboard]
  | cons u rest ih =>
    intro h
    rcases List.pairwise_cons.mp h with ⟨hu, hrest⟩
    unfold build_leaderboard
    refine List.pairwise_cons.mpr ⟨?_, ih (k + 1) hrest⟩
    intro e he
    rcases mem_build_leaderboard e (k + 1) rest he with ⟨r, v, hv, rfl⟩
    exact hRS u v (hu v hv) k r

/-- Rendering preserves list length. -/
theorem length_build_leaderboard :
    ∀ (k : Nat) (l : List User), (build_leaderboard k l).length = l.length := by
  intro k l
  induction l generalizing k with
  | nil => rfl
  | cons u rest ih =>
    unfold build_leaderboard
    rw [List.length_cons, List.length_cons, ih (k + 1)]

/-- The eligible users of `db_ab` sort (stably, descending by composite
score) to user A before user B. -/
theorem db_ab_sorted :
    List.insertionSort lb_before (db_ab.users.filter fun u => 1 ≤ u.total_quizzes_taken) =
      [userA, userB] := by
  have hfilter : (db_ab.users.filter fun u => 1 ≤ u.total_quizzes_taken) = [userB, userA] := rfl
  rw [hfilter]
  have hno : ¬ lb_before userB userA := by
    unfold lb_before composite_score userA userB
    norm_num
  simp [List.insertionSort, List.orderedInsert, hno]

/-- Counterexample to C9: with `limit = 1` the leaderboard for `db_ab` holds a
single entry although two users are eligible, so the leaderboard does not
contain exactly the users with at least one quiz taken. -/
theorem c9_counterexample :
    (get_leaderboard db_ab 1).length = 1 ∧
    (db_ab.users.filter fun u => 1 ≤ u.total_quizzes_taken).length = 2 := by
  constructor
  · unfold get_leaderboard
    dsimp only
    rw [length_build_leaderboard, List.length_take,
      (List.perm_insertionSort lb_before _).length_eq]
    decide
  · decide

/-- The key-class subsequence of an ordered insertion: inserting `x` adds it
in front of the elements of its own composite-score class and leaves every
other class untouched (the skipped prefix has strictly larger keys). -/
theorem filter_orderedInsert (x : User) (s : List User) (c : ℚ) :
    (List.orderedInsert lb_before x s).filter (fun u => composite_score u = c) =
      if composite_score x = c then
        x :: s.filter (fun u => composite_score u = c)
      else s.filter (fun u => composite_score u = c) := by
  induction s with
  | nil =>
    by_cases hc : composite_score x = c <;>
      simp [List.orderedInsert, hc]
  | cons b t ih =>
    rw [List.orderedInsert]
    by_cases hr : lb_before x b
    · rw [if_pos hr]
      by_cases hc : composite_score x = c <;> simp [List.filter_cons, hc]
    · rw [if_neg hr]
      have hbx : composite_score x < composite_score b := not_le.mp hr
      by_cases hc : composite_score x = c
      · have hbc : composite_score b ≠ c := by
          rw [← hc]
          exact ne_of_gt hbx
        simp [List.filter_cons, hbc, ih, hc]
      · simp [List.filter_cons, ih, hc]

/-- Stability of the sort realising Python's `sorted(..., reverse=True)`:
within every composite-score class the sorted list keeps exactly the original
enumeration order (ties are order-stable). -/
theorem filter_insertionSort (l : List User) (c : ℚ) :
    (List.insertionSort lb_before l).filter (fun u => composite_score u = c) =
      l.filter (fun u => composite_score u = c) := by
  induction l with
  | nil => rfl
  | cons x t ih =>
    rw [List.insertionSort, filter_orderedInsert, ih, List.filter_cons]
    by_cases hc : composite_score x = c <;> simp [hc]

/-- Two lists that are both ordered by non-increasing composite score and have
identical composite-score-class subsequences are equal: descending order plus
tie-stability pins the sorted list uniquely. -/
theorem sorted_stable_unique :
    ∀ (s1 s2 : List User),
      s1.Pairwise (fun u v => composite_score v ≤ composite_score u) →
      s2.Pairwise (fun u v => composite_score v ≤ composite_score u) →
      (∀ c : ℚ, s1.filter (fun u => composite_score u = c) =
        s2.filter (fun u => composite_score u = c)) →
      s1 = s2 := by
  intro s1
  induction s1 with
  | nil =>
    intro s2 _ _ hf
    cases s2 with
    | nil => rfl
    | cons y t2 =>
      exfalso
      have h := hf (composite_score y)
      rw [List.filter_cons] at h
      simp at h
  | cons x t1 ih =>
    intro s2 hs1 hs2 hf
    cases s2 with
    | nil =>
      exfalso
      have h := hf (composite_score x)
      rw [List.filter_cons] at h
      simp at h
    | cons y t2 =>
      rcases List.pairwise_cons.mp hs1 with ⟨hx, ht1⟩
      rcases List.pairwise_cons.mp hs2 with ⟨hy, ht2⟩
      have hx_mem : x ∈ y :: t2 := by
        have hmem : x ∈ (y :: t2).filter (fun u => composite_score u = composite_score x) := by
          rw [← hf (composite_score x), List.filter_cons]
          simp
        exact (List.mem_filter.mp hmem).1
      have hy_mem : y ∈ x :: t1 := by
        have hmem : y ∈ (x :: t1).filter (fun u => composite_score u = composite_score y) := by
          rw [hf (composite_score y), List.filter_cons]
          simp
        exact (List.mem_filter.mp hmem).1
      have hxy : composite_score x = composite_score y := by
        have h1 : composite_score x ≤ composite_score y := by
          rcases List.mem_cons.mp hx_mem with heq | hmem
          · rw [heq]
          · exact hy x hmem
        have h2 : composite_score y ≤ composite_score x := by
          rcases List.mem_cons.mp hy_mem with heq | hmem
          · rw [heq]
          · exact hx y hmem
        exact le_antisymm h1 h2
      have hhead : x = y ∧
          t1.filter (fun u => composite_score u = composite_score x) =
            t2.filter (fun u => composite_score u = composite_score x) := by
        have h := hf (composite_score x)
        rw [List.filter_cons, List.filter_cons] at h
        rw [if_pos (by simp), if_pos (by simp [← hxy])] at h
        exact ⟨(List.cons.injEq _ _ _ _ ▸ h).1, (List.cons.injEq _ _ _ _ ▸ h).2⟩
      obtain ⟨rfl, -⟩ := hhead
      have htails : ∀ c : ℚ, t1.filter (fun u => composite_score u = c) =
          t2.filter (fun u => composite_score u = c) := by
        intro c
        have h := hf c
        rw [List.filter_cons, List.filter_cons] at h
        by_cases hc : composite_score x = c
        · rw [if_pos (by simp [hc]), if_pos (by simp [hc])] at h
          exact (List.cons.injEq _ _ _ _ ▸ h).2
        · rw [if_neg (by simp [hc]), if_neg (by simp [hc])] at h
          exact h
      rw [ih t2 ht1 ht2 htails]

/-- The eligible users of `db_tie` have equal composite scores, and the
stable sort keeps their enumeration order: C before D. -/
theorem db_tie_sorted :
    List.insertionSort lb_before (db_tie.users.filter fun u => 1 ≤ u.total_quizzes_taken) =
      [userC, userD] := by
  have hfilter : (db_tie.users.filter fun u => 1 ≤ u.total_quizzes_taken) = [userC, userD] := rfl
  rw [hfilter]
  have hyes : lb_before userC userD := by
    unfold lb_before composite_score userC userD
    norm_num
  simp [List.insertionSort, List.orderedInsert, hyes]

/-- C9 (amended): the leaderboard is exactly the rendering of the first
`limit` eligible users under the stable descending composite-score order.
The sorted list is a permutation of the users with at least one quiz taken,
is ordered by non-increasing composite score, keeps every composite-score
class in its original enumeration order (tie-stability), and these properties
determine it uniquely; the leaderboard renders precisely its first `limit`
elements with 1-based ranks. Every entry comes from an eligible user
(anonymous ones under the masked label `Anonymous #<id>`), entries are
ordered by non-increasing composite score, the length is the minimum of
`limit` and the number of eligible users, in `db_ab` the anonymous user A
(composite 500) ranks first above B (composite 360), and in `db_tie` the
composite-tied users C and D keep their enumeration order. -/
theorem c9_leaderboard_amended (db : DB) (limit : Nat) :
    (List.insertionSort lb_before
        (db.users.filter fun u => 1 ≤ u.total_quizzes_taken)).Perm
      (db.users.filter fun u => 1 ≤ u.total_quizzes_taken) ∧
    (List.insertionSort lb_before
        (db.users.filter fun u => 1 ≤ u.total_quizzes_taken)).Pairwise
      (fun u v => composite_score v ≤ composite_score u) ∧
    (∀ c : ℚ,
      (List.insertionSort lb_before
          (db.users.filter fun u => 1 ≤ u.total_quizzes_taken)).filter
        (fun u => composite_score u = c) =
      (db.users.filter fun u => 1 ≤ u.total_quizzes_taken).filter
        (fun u => composite_score u = c)) ∧
    (∀ s : List User,
      s.Pairwise (fun u v => composite_score v ≤ composite_score u) →
      (∀ c : ℚ, s.filter (fun u => composite_score u = c) =
        (db.users.filter fun u => 1 ≤ u.total_quizzes_taken).filter
          (fun u => composite_score u = c)) →
      s = List.insertionSort lb_before
        (db.users.filter fun u => 1 ≤ u.total_quizzes_taken)) ∧
    get_leaderboard db limit =
      build_leaderboard 1
        ((List.insertionSort lb_before
          (db.users.filter fun u => 1 ≤ u.total_quizzes_taken)).take limit) ∧
    (∀ e ∈ get_leaderboard db limit, ∃ u, u ∈ db.users ∧ 1 ≤ u.total_quizzes_taken ∧
        e.user_identifier =
          (if u.is_anonymous then "Anonymous #" ++ toString u.id else u.user_identifier) ∧
        e.total_quizzes = u.total_quizzes_taken ∧
        e.accuracy_rate = u.accuracy_rate ∧
        e.total_correct = u.total_correct_answers ∧
        e.flags_submitted = u.articles_flagged ∧
        e.score = py_int (composite_score u)) ∧
    (get_leaderboard db limit).Pairwise
      (fun e1 e2 => (e2.total_quizzes : ℚ) * e2.accuracy_rate ≤
        (e1.total_quizzes : ℚ) * e1.accuracy_rate) ∧
    (get_leaderboard db limit).length =
      min limit (db.users.filter fun u => 1 ≤ u.total_quizzes_taken).length ∧
    (get_leaderboard db_ab 10).map (fun e => (e.rank, e.user_identifier)) =
      [(1, "Anonymous #1"), (2, "bob")] ∧
    (get_leaderboard db_tie 10).map (fun e => (e.rank, e.user_identifier)) =
      [(1, "carol"), (2, "dave")] := by
  refine ⟨List.perm_insertionSort lb_before _,
    List.sorted_insertionSort lb_before _,
    fun c => filter_insertionSort _ c,
    fun s hs hfc =>
      sorted_stable_unique s _ hs (List.sorted_insertionSort lb_before _)
        (fun c => (hfc c).trans (filter_insertionSort _ c).symm),
    rfl, ?_, ?_, ?_, ?_, ?_⟩
  · intro e he
    unfold get_leaderboard at he
    dsimp only at he
    rcases mem_build_leaderboard e 1 _ he with ⟨r, u, hu, rfl⟩
    have hu2 := List.mem_of_mem_take hu
    have hu3 := (List.perm_insertionSort lb_before _).mem_iff.mp hu2
    rcases List.mem_filter.mp hu3 with ⟨hmem, helig⟩
    exact ⟨u, hmem, by simpa using helig, rfl, rfl, rfl, rfl, rfl, rfl⟩
  · unfold get_leaderboard
    dsimp only
    refine pairwise_build_leaderboard lb_before _ ?_ 1 _ ?_
    · intro u v huv r s
      exact huv
    · exact List.Pairwise.sublist (List.take_sublist _ _)
        (List.sorted_insertionSort lb_before _)
  · unfold get_leaderboard
    dsimp only
    rw [length_build_leaderboard, List.length_take,
      (List.perm_insertionSort lb_before _).length_eq]
  · unfold get_leaderboard
    dsimp only
    rw [db_ab_sorted]
    decide
  · unfold get_leaderboard
    dsimp only
    rw [db_tie_sorted]
    decide

/-- Witness for C9 (amended): the leaderboard of `db_ab` is sorted by
non-increasing composite score. -/
theorem c9_leaderboard_amended_witness :
    (get_leaderboard db_ab 10).Pairwise
      (fun e1 e2 => (e2.total_quizzes : ℚ) * e2.accuracy_rate ≤
        (e1.total_quizzes : ℚ) * e1.accuracy_rate) :=
  (c9_leaderboard_amended db_ab 10).2.2.2.2.2.2.1

/-- C10: creating a misinformation flag re-aggregates only the article — the
user table is untouched, so the flagging user's `articles_flagged` is stale —
and the stored flag count catches up exactly when `update_user_statistics`
next runs for a user who has at least one response, at which point it becomes
the current number of that user's flags. -/
theorem c10_flag_updates_article_only :
    (∀ (db : DB) (fd : MisinformationFlagCreate),
      (create_misinformation_flag db fd).2.users = db.users) ∧
    (∀ (db : DB) (uid : Int) (t : DateTime) (u0 : User),
      get_user_by_id db uid = some u0 →
      user_responses db uid ≠ [] →
      (get_user_by_id (update_user_statistics db uid t) uid).map
          (fun u => u.articles_flagged) =
        some (db.flags.filter fun f => f.user_id = uid).length) := by
  constructor
  · intro db fd
    unfold create_misinformation_flag
    dsimp only
    rw [update_article_credibility_users]
  · intro db uid t u0 hu hne
    rw [update_user_statistics_of_found db uid t u0 hu hne]
    have hid : u0.id = uid := by simpa using List.find?_some hu
    unfold get_user_by_id at hu ⊢
    dsimp only
    rw [find?_map_congr _ _ _ fun x => by
      by_cases hx : x.id = uid <;> simp [hx, recompute_user_record_id]]
    rw [hu, Option.map_some', Option.map_some', if_pos hid]
    rfl

/-- Witness for C10: flagging article 1 in `db_w10` leaves the user table
unchanged, and the next statistics recomputation for user 1 (who has a
response) sets `articles_flagged` to 1. -/
theorem c10_flag_updates_article_only_witness :
    (create_misinformation_flag db_w10 fd_w10).2.users = db_w10.users ∧
    (get_user_by_id
        (update_user_statistics (create_misinformation_flag db_w10 fd_w10).2 1 (dt 5)) 1).map
        (fun u => u.articles_flagged) =
      some 1 := by
  constructor
  · exact c10_flag_updates_article_only.1 db_w10 fd_w10
  · have h := c10_flag_updates_article_only.2 (create_misinformation_flag db_w10 fd_w10).2
      1 (dt 5) ⟨1, "u", false, 1, 1, 2, 50, 0, 1, ⟨0, 0⟩⟩ (by decide) (by decide)
    rw [h]
    rfl
